import Mathlib

/-!
Verification of the scheduling core of the ContentIntelligence repository
(`src/resource_management/neural_orchestrator.py`): the resource monitor,
the resource predictor, the workload-aware (priority) scheduler, and the
carbon-aware scheduler.

Shallow embedding conventions:
* Python floats are modelled as rationals (`ℚ`); the arithmetic the claims
  are about is exact (comparisons, additions, divisions of small numbers).
* Python dict-based job descriptors become a structure with `Option` fields;
  `dict.get(k, default)` becomes `Option.getD`.
* The probe made of psutil / numpy calls is modelled as an input of type
  `Except String ProbeData`: an exception raised while sampling is the
  `Except.error` case, matching the `try/except` in `monitor_resources`.
* `asyncio.PriorityQueue` holds tuples `(priority, job_id, job)` in a binary
  heap; `get` pops the minimum under the lexicographic order on
  `(priority, job_id)`.  That minimum is modelled directly; for entries
  equal in both components (where CPython would try to compare the job
  dicts and raise `TypeError`) the model keeps the earliest entry.
* Timestamps only enter the claims through the two feature-vector
  components `mktime(timetuple) % 86400 / 86400` and `weekday() / 7`;
  a timestamp is modelled as its epoch second count plus its weekday.
-/

/-- Timestamp abstraction: epoch seconds (local epoch, as produced by
`time.mktime(ts.timetuple())`) and the weekday index (`ts.weekday()`). -/
structure Timestamp where
  epochSeconds : ℕ
  weekday : ℕ
deriving DecidableEq

/-- `ResourceMetrics` dataclass from the source. -/
structure ResourceMetrics where
  cpuUsage : ℚ
  memoryUsage : ℚ
  gpuUsage : ℚ
  storageUsage : ℚ
  networkBytes : ℚ
  timestamp : Timestamp
deriving DecidableEq

/-- Raw values read by the probe in `monitor_resources` before the
`ResourceMetrics` record is assembled: `psutil.cpu_percent`,
`psutil.virtual_memory().percent`, the (simulated) GPU usage, the disk
usage counters and the network counters. -/
structure ProbeData where
  cpuPercent : ℚ
  memoryPercent : ℚ
  gpuUsage : ℚ
  diskUsed : ℚ
  diskTotal : ℚ
  netBytesSent : ℚ
  netBytesRecv : ℚ
deriving DecidableEq

/-- Assembling the `ResourceMetrics` record in `monitor_resources`:
`storage_usage = (disk.used / disk.total) * 100`,
`network_io = bytes_sent + bytes_recv`. -/
def mkMetrics (now : Timestamp) (p : ProbeData) : ResourceMetrics :=
  { cpuUsage := p.cpuPercent
    memoryUsage := p.memoryPercent
    gpuUsage := p.gpuUsage
    storageUsage := p.diskUsed / p.diskTotal * 100
    networkBytes := p.netBytesSent + p.netBytesRecv
    timestamp := now }

/-- History append with bounded size, from `monitor_resources`:
`history.append(metrics); if len(history) > 1000: history.pop(0)`. -/
def push_history (h : List ResourceMetrics) (m : ResourceMetrics) :
    List ResourceMetrics :=
  let h2 := h ++ [m]
  if 1000 < h2.length then h2.drop 1 else h2

/-- `NeuralResourceOrchestrator.monitor_resources`, with the probe passed
explicitly.  On probe success the sample is appended to the history (with
FIFO eviction past 1000 entries); on probe failure (the `except` branch)
an all-zero sample is returned and the history is untouched.  Returns the
sample together with the new history. -/
def monitor_resources (now : Timestamp) (probe : Except String ProbeData)
    (history : List ResourceMetrics) :
    ResourceMetrics × List ResourceMetrics :=
  match probe with
  | Except.ok p =>
      let m := mkMetrics now p
      (m, push_history history m)
  | Except.error _ =>
      ({ cpuUsage := 0, memoryUsage := 0, gpuUsage := 0, storageUsage := 0,
         networkBytes := 0, timestamp := now }, history)

/-- Folding a sequence of successful probe results through
`monitor_resources`, starting from the empty history (fresh orchestrator). -/
def run_monitor (now : Timestamp) (probes : List ProbeData) :
    List ResourceMetrics :=
  probes.foldl (fun h p => (monitor_resources now (Except.ok p) h).2) []

/-- One 6-dimensional feature vector, a row of the array built by
`_extract_prediction_features`. -/
structure FeatureVec where
  cpu : ℚ
  mem : ℚ
  gpu : ℚ
  storage : ℚ
  timeOfDay : ℚ
  dayOfWeek : ℚ
deriving DecidableEq

def zero_feat : FeatureVec := ⟨0, 0, 0, 0, 0, 0⟩

def feat_add (a b : FeatureVec) : FeatureVec :=
  ⟨a.cpu + b.cpu, a.mem + b.mem, a.gpu + b.gpu, a.storage + b.storage,
   a.timeOfDay + b.timeOfDay, a.dayOfWeek + b.dayOfWeek⟩

def feat_sub (a b : FeatureVec) : FeatureVec :=
  ⟨a.cpu - b.cpu, a.mem - b.mem, a.gpu - b.gpu, a.storage - b.storage,
   a.timeOfDay - b.timeOfDay, a.dayOfWeek - b.dayOfWeek⟩

def feat_scale (c : ℚ) (a : FeatureVec) : FeatureVec :=
  ⟨c * a.cpu, c * a.mem, c * a.gpu, c * a.storage,
   c * a.timeOfDay, c * a.dayOfWeek⟩

def feat_sum (l : List FeatureVec) : FeatureVec :=
  l.foldl feat_add zero_feat

/-- `np.mean(rows, axis=0)`: componentwise sum divided by the row count. -/
def feat_mean (l : List FeatureVec) : FeatureVec :=
  feat_scale (1 / (l.length : ℚ)) (feat_sum l)

/-- `np.diff(rows, axis=0)`: consecutive row differences
`rows[i+1] - rows[i]`. -/
def feat_diff (l : List FeatureVec) : List FeatureVec :=
  List.zipWith feat_sub l.tail l

/-- The feature vector of one sample, from `_extract_prediction_features`:
`[cpu/100, mem/100, gpu/100, storage/100,
  mktime(ts) % 86400 / 86400, ts.weekday() / 7]`. -/
def feature_vector (m : ResourceMetrics) : FeatureVec :=
  ⟨m.cpuUsage / 100, m.memoryUsage / 100, m.gpuUsage / 100,
   m.storageUsage / 100,
   ((m.timestamp.epochSeconds % 86400 : ℕ) : ℚ) / 86400,
   (m.timestamp.weekday : ℚ) / 7⟩

/-- The four projected percentages returned by `_neural_predict`. -/
structure PredictedUsage where
  cpuUsage : ℚ
  memoryUsage : ℚ
  gpuUsage : ℚ
  storageUsage : ℚ
deriving DecidableEq

/-- `max(0, min(100, v))`, the clamping applied to each projection. -/
def clamp_pct (x : ℚ) : ℚ := max 0 (min 100 x)

/-- `_neural_predict`: latest row plus the mean first-difference of the
last five rows, scaled by `horizon / 30`, each component clamped to
`[0, 100]` after rescaling to percent. -/
def neural_predict (features : List FeatureVec) (horizon : ℕ) :
    PredictedUsage :=
  let current := features.getLast?.getD zero_feat
  let trend :=
    if 5 ≤ features.length then
      feat_mean (feat_diff (features.drop (features.length - 5)))
    else zero_feat
  let future := feat_add current (feat_scale ((horizon : ℚ) / 30) trend)
  { cpuUsage := clamp_pct (future.cpu * 100)
    memoryUsage := clamp_pct (future.mem * 100)
    gpuUsage := clamp_pct (future.gpu * 100)
    storageUsage := clamp_pct (future.storage * 100) }

/-- One recommendation record from `_generate_resource_recommendations`. -/
structure Recommendation where
  resource : String
  action : String
  urgency : String
deriving DecidableEq

/-- `_generate_resource_recommendations`: fixed-threshold rules on the
predicted usage (CPU > 85 scale_up / CPU < 30 scale_down; memory > 90
scale_up; GPU > 80 optimize). -/
def generate_resource_recommendations (p : PredictedUsage) :
    List Recommendation :=
  (if 85 < p.cpuUsage then [⟨"CPU", "scale_up", "high"⟩]
   else if p.cpuUsage < 30 then [⟨"CPU", "scale_down", "low"⟩]
   else []) ++
  (if 90 < p.memoryUsage then [⟨"Memory", "scale_up", "critical"⟩]
   else []) ++
  (if 80 < p.gpuUsage then [⟨"GPU", "optimize", "medium"⟩] else [])

/-- `np.var`: population variance, mean of squared deviations. -/
def rat_variance (l : List ℚ) : ℚ :=
  let n : ℚ := l.length
  let mean := l.sum / n
  (l.map (fun x => (x - mean) ^ 2)).sum / n

/-- `_calculate_prediction_confidence`: flat 0.6 with under 50 samples,
otherwise `min(0.95, max(0.5, 1 - var(last 20 cpu samples)/1000))`. -/
def calculate_prediction_confidence (history : List ResourceMetrics) : ℚ :=
  if history.length < 50 then 6 / 10
  else
    let recentCpu := (history.drop (history.length - 20)).map
      (fun m => m.cpuUsage)
    min (95 / 100) (max (5 / 10) (1 - rat_variance recentCpu / 1000))

/-- Result of `predict_resource_needs`: either the insufficient-data
record (`prediction_available: False` plus a reason) or a full prediction
(`prediction_available: True` with horizon, predicted usage,
recommendations and confidence). -/
inductive PredictionResult where
  | insufficientData (reason : String)
  | prediction (timeHorizonMinutes : ℕ) (predictedUsage : PredictedUsage)
      (recommendations : List Recommendation) (confidence : ℚ)
deriving DecidableEq

/-- `prediction_available` flag of a `PredictionResult`. -/
def PredictionResult.isAvailable : PredictionResult → Bool
  | PredictionResult.insufficientData _ => false
  | PredictionResult.prediction _ _ _ _ => true

/-- `NeuralResourceOrchestrator.predict_resource_needs`.  With fewer than
10 historical samples it returns the insufficient-data record; otherwise
it extracts features from the last 10 samples, projects them, and returns
a full prediction.  (The surrounding `try/except` only catches exceptions
raised by the pure computations modelled here, so it has no reachable
error case in the model.) -/
def predict_resource_needs (history : List ResourceMetrics)
    (timeHorizonMinutes : ℕ) : PredictionResult :=
  if history.length < 10 then
    PredictionResult.insufficientData "Insufficient historical data"
  else
    let recent := history.drop (history.length - 10)
    let features := recent.map feature_vector
    let predictions := neural_predict features timeHorizonMinutes
    PredictionResult.prediction timeHorizonMinutes predictions
      (generate_resource_recommendations predictions)
      (calculate_prediction_confidence history)

/-- Caller-supplied job descriptor (a Python dict); absent keys are
`none`. -/
structure Job where
  id : Option String
  jobType : Option String
  urgency : Option String
  resourceWeight : Option ℚ
  estimatedDurationHours : Option ℚ
  carbonPriority : Option String
deriving DecidableEq

/-- The `type_priorities` dict in `_calculate_job_priority`. -/
def type_priorities : List (String × ℤ) :=
  [("training", 50), ("inference", 10), ("batch_processing", 30),
   ("model_optimization", 40)]

/-- The `urgency_modifiers` dict in `_calculate_job_priority`. -/
def urgency_modifiers : List (String × ℤ) :=
  [("critical", -30), ("high", -15), ("normal", 0), ("low", 15)]

/-- `WorkloadAwareScheduler._calculate_job_priority`: base 100, plus the
type offset (`type_priorities.get(type, 50)` with type defaulting to
`'inference'`), plus the urgency modifier (`.get(urgency, 0)` with urgency
defaulting to `'normal'`), plus 20 when `resource_weight > 2.0`
(defaulting to 1.0), floored at 1 by `max(1, priority)`. -/
def calculate_job_priority (job : Job) : ℤ :=
  let jobType := job.jobType.getD "inference"
  let urgency := job.urgency.getD "normal"
  let resourceWeight := job.resourceWeight.getD 1
  let p := 100 + ((type_priorities.lookup jobType).getD 50)
    + ((urgency_modifiers.lookup urgency).getD 0)
    + (if 2 < resourceWeight then 20 else 0)
  max 1 p

/-- Per-type offset as the spec words it: training +50, inference +10,
batch_processing +30, model_optimization +40, any other type +50. -/
def specTypeOffset (t : String) : ℤ :=
  if t = "training" then 50
  else if t = "inference" then 10
  else if t = "batch_processing" then 30
  else if t = "model_optimization" then 40
  else 50

/-- Urgency modifier as the spec words it: critical −30, high −15,
normal 0, low +15, any other urgency 0. -/
def specUrgencyModifier (u : String) : ℤ :=
  if u = "critical" then -30
  else if u = "high" then -15
  else if u = "normal" then 0
  else if u = "low" then 15
  else 0

/-- Priority exactly as the spec sentence describes it: base 100, plus
per-type offset, plus urgency modifier, plus 20 if resource_weight > 2.0,
floored at 1. -/
def spec_priority (job : Job) : ℤ :=
  max 1 (100 + specTypeOffset (job.jobType.getD "inference")
    + specUrgencyModifier (job.urgency.getD "normal")
    + (if 2 < job.resourceWeight.getD 1 then 20 else 0))

/-- One entry of the `asyncio.PriorityQueue`: the tuple
`(priority, job_id, job)` put by `schedule_job`. -/
structure QueueEntry where
  priority : ℤ
  jobId : String
  job : Job
deriving DecidableEq

/-- Strict lexicographic order on the first two tuple components, the
order a heap pop of `(priority, job_id, job)` tuples is decided by
whenever the pairs differ. -/
def entryLt (a b : QueueEntry) : Prop :=
  a.priority < b.priority ∨ (a.priority = b.priority ∧ a.jobId < b.jobId)

instance (a b : QueueEntry) : Decidable (entryLt a b) :=
  inferInstanceAs (Decidable (a.priority < b.priority ∨
    (a.priority = b.priority ∧ a.jobId < b.jobId)))

/-- Non-strict version of `entryLt`, used to state minimality. -/
def entryLe (a b : QueueEntry) : Prop :=
  a.priority < b.priority ∨ (a.priority = b.priority ∧ a.jobId ≤ b.jobId)

instance (a b : QueueEntry) : Decidable (entryLe a b) :=
  inferInstanceAs (Decidable (a.priority < b.priority ∨
    (a.priority = b.priority ∧ a.jobId ≤ b.jobId)))

/-- `queue.put(...)` appends an entry (the heap as a set of entries). -/
def queue_put (q : List QueueEntry) (e : QueueEntry) : List QueueEntry :=
  q ++ [e]

/-- Select the minimum entry under the `(priority, job_id)` order from
`e` and the remaining entries, returning it with the rest of the queue.
Among entries equal in both components the earliest one is kept (CPython
would compare the job dicts there and raise `TypeError`; the claims only
involve entries with distinct keys). -/
def findMin (e : QueueEntry) : List QueueEntry → QueueEntry × List QueueEntry
  | [] => (e, [])
  | x :: xs =>
    if entryLt x e then
      ((findMin x xs).1, e :: (findMin x xs).2)
    else
      ((findMin e xs).1, x :: (findMin e xs).2)

/-- `queue.get()`: pop the minimum entry under the tuple order. -/
def queue_get : List QueueEntry → Option (QueueEntry × List QueueEntry)
  | [] => none
  | e :: es => some (findMin e es)

/-- The `current_metrics` dict: cpu / memory / gpu usage percentages. -/
structure UsageMetrics where
  cpu : ℚ
  memory : ℚ
  gpu : ℚ
deriving DecidableEq

/-- The `resource_thresholds` config dict. -/
structure Thresholds where
  cpu : ℚ
  memory : ℚ
  gpu : ℚ
deriving DecidableEq

/-- Default thresholds in `_can_execute_job`: cpu 80, memory 85, gpu 90. -/
def default_thresholds : Thresholds := ⟨80, 85, 90⟩

/-- `WorkloadAwareScheduler._can_execute_job`: every tracked resource
strictly below its threshold. -/
def can_execute_job (th : Thresholds) (m : UsageMetrics) : Bool :=
  decide (m.cpu < th.cpu) && decide (m.memory < th.memory)
    && decide (m.gpu < th.gpu)

/-- `WorkloadAwareScheduler._update_resource_usage`: additive bump by
`resource_weight` times the per-resource coefficient (cpu 10, memory 5,
gpu 15), clamped to 100. -/
def update_resource_usage (job : Job) (m : UsageMetrics) : UsageMetrics :=
  let w := job.resourceWeight.getD 1
  ⟨min 100 (m.cpu + w * 10), min 100 (m.memory + w * 5),
   min 100 (m.gpu + w * 15)⟩

/-- Result of `_execute_job` (the simulated execution). -/
structure ExecutionResult where
  status : String
  jobType : String
  output : String
deriving DecidableEq

/-- `WorkloadAwareScheduler._execute_job` minus the simulated sleeps. -/
def execute_job (job : Job) : ExecutionResult :=
  let jobType := job.jobType.getD "inference"
  ⟨"completed", jobType, "Result for " ++ job.id.getD "unknown"⟩

/-- One record of the `executed_jobs` list in `_try_execute_jobs`
(the wall-clock `execution_time` field is not modelled). -/
structure ExecutedJob where
  jobId : String
  result : ExecutionResult
deriving DecidableEq

/-- The drain loop of `_try_execute_jobs`: while the queue is nonempty and
`_can_execute_job` holds on the current usage, pop the minimum entry,
execute it, and bump the usage with `_update_resource_usage`.  Fuel-indexed
with the queue length as fuel (each iteration removes one entry). -/
def drain_queue (th : Thresholds) :
    ℕ → UsageMetrics → List QueueEntry →
    List ExecutedJob × List QueueEntry × UsageMetrics
  | 0, m, q => ([], q, m)
  | Nat.succ n, m, q =>
    if can_execute_job th m then
      match queue_get q with
      | none => ([], q, m)
      | some (e, rest) =>
        let m2 := update_resource_usage e.job m
        let r := drain_queue th n m2 rest
        (⟨e.jobId, execute_job e.job⟩ :: r.1, r.2)
    else ([], q, m)

/-- `WorkloadAwareScheduler._try_execute_jobs` with the resource probe
passed in: drains the queue from the probed usage.  Returns the executed
jobs, the remaining queue and the final usage estimate. -/
def try_execute_jobs (th : Thresholds) (m : UsageMetrics)
    (q : List QueueEntry) :
    List ExecutedJob × List QueueEntry × UsageMetrics :=
  drain_queue th q.length m q

/-- One green window built by `_find_green_windows`: hour bounds, forecast
intensity and renewable share, and the remaining capacity (started at 10
and decremented in place as jobs are packed). -/
structure CarbonWindow where
  startHour : ℕ
  endHour : ℕ
  carbonIntensity : ℚ
  renewablePercentage : ℚ
  capacity : ℚ
deriving DecidableEq

/-- One entry of the `scheduled` list in `_schedule_in_green_windows`. -/
structure ScheduledJob where
  jobId : Option String
  scheduledStart : ℕ
  scheduledEnd : ℕ
  carbonIntensity : ℚ
  renewablePercentage : ℚ
  carbonPriority : String
deriving DecidableEq

/-- `job.get('estimated_duration_hours', 1)`. -/
def jobDuration (job : Job) : ℚ := job.estimatedDurationHours.getD 1

/-- The scheduled entry built when `job` is packed into `window`. -/
def mkScheduled (job : Job) (w : CarbonWindow) : ScheduledJob :=
  ⟨job.id, w.startHour, w.endHour, w.carbonIntensity, w.renewablePercentage,
   job.carbonPriority.getD "normal"⟩

/-- The inner window scan of `_schedule_in_green_windows`: walk the window
list in order, assign the job to the first window whose remaining capacity
is at least the job duration, decrementing that window's capacity by the
duration; later windows are untouched and the job is dropped (`none`) when
no window fits. -/
def assign_job (job : Job) :
    List CarbonWindow → Option ScheduledJob × List CarbonWindow
  | [] => (none, [])
  | w :: ws =>
    if jobDuration job ≤ w.capacity then
      (some (mkScheduled job w),
       { w with capacity := w.capacity - jobDuration job } :: ws)
    else
      ((assign_job job ws).1, w :: (assign_job job ws).2)

/-- `CarbonAwareScheduler._schedule_in_green_windows`: jobs in input
order, each packed by `assign_job`; returns the scheduled entries and the
final window state (the Python code mutates the window dicts in place). -/
def schedule_in_green_windows :
    List Job → List CarbonWindow → List ScheduledJob × List CarbonWindow
  | [], ws => ([], ws)
  | j :: js, ws =>
    let r := assign_job j ws
    let rest := schedule_in_green_windows js r.2
    (r.1.toList ++ rest.1, rest.2)

/-- Result dict of `_calculate_carbon_savings`; the zero-job early return
produces only the first two keys, so the detail fields are `Option`s. -/
structure CarbonSavings where
  totalSavingsKgCo2 : ℚ
  percentageReduction : ℚ
  immediateEmissionsKgCo2 : Option ℚ
  greenEmissionsKgCo2 : Option ℚ
  jobsScheduled : Option ℕ
deriving DecidableEq

/-- `CarbonAwareScheduler._calculate_carbon_savings`: zero jobs short-
circuits to zeros; otherwise emissions at the 450 gCO2/kWh baseline are
compared with emissions at the mean scheduled intensity (1 kWh per job),
the percentage-reduction division is guarded by `immediate_emissions > 0`,
and both headline figures are clamped to be non-negative. -/
def calculate_carbon_savings (scheduled : List ScheduledJob) :
    CarbonSavings :=
  if scheduled.length = 0 then ⟨0, 0, none, none, none⟩
  else
    let totalJobs : ℚ := scheduled.length
    let immediateIntensity : ℚ := 450
    let greenAvgIntensity :=
      (scheduled.map (fun j => j.carbonIntensity)).sum / totalJobs
    let immediateEmissions := totalJobs * immediateIntensity / 1000
    let greenEmissions := totalJobs * greenAvgIntensity / 1000
    let savings := immediateEmissions - greenEmissions
    let percentageReduction :=
      if 0 < immediateEmissions then savings / immediateEmissions * 100
      else 0
    ⟨max 0 savings, max 0 percentageReduction,
     some immediateEmissions, some greenEmissions, some scheduled.length⟩

/-- A scheduled entry used to instantiate savings statements. -/
def sampleScheduled : ScheduledJob := ⟨some "a", 9, 10, 250, 70, "normal"⟩

/-- A concrete timestamp for witnesses. -/
def sampleTs : Timestamp := ⟨1700000000, 3⟩

/-- A concrete probe reading for witnesses. -/
def sampleProbe : ProbeData := ⟨40, 50, 30, 20, 100, 5, 7⟩

/-- A concrete resource sample for witnesses. -/
def sampleMetrics : ResourceMetrics := ⟨40, 50, 30, 20, 12, sampleTs⟩

/-- Two jobs of equal computed priority used for the queue tie-break
counterexample: both are inference / normal, so both get priority 110. -/
def jobIdA : Job := ⟨some "a", some "inference", some "normal", none, none, none⟩

def jobIdB : Job := ⟨some "b", some "inference", some "normal", none, none, none⟩

def entryA : QueueEntry := ⟨110, "a", jobIdA⟩

def entryB : QueueEntry := ⟨110, "b", jobIdB⟩

lemma lookup_type_eq (t : String) :
    ((type_priorities.lookup t).getD 50) = specTypeOffset t := by
  by_cases h1 : t = "training" <;> by_cases h2 : t = "inference" <;>
    by_cases h3 : t = "batch_processing" <;>
    by_cases h4 : t = "model_optimization" <;>
    simp_all [type_priorities, List.lookup_cons, List.lookup_nil,
      specTypeOffset, beq_false_of_ne]

lemma lookup_urgency_eq (u : String) :
    ((urgency_modifiers.lookup u).getD 0) = specUrgencyModifier u := by
  by_cases h1 : u = "critical" <;> by_cases h2 : u = "high" <;>
    by_cases h3 : u = "normal" <;> by_cases h4 : u = "low" <;>
    simp_all [urgency_modifiers, List.lookup_cons, List.lookup_nil,
      specUrgencyModifier, beq_false_of_ne]

lemma specTypeOffset_ge (t : String) : 10 ≤ specTypeOffset t := by
  unfold specTypeOffset; split_ifs <;> norm_num

lemma calculate_eq_spec (job : Job) :
    calculate_job_priority job = spec_priority job := by
  simp only [calculate_job_priority, spec_priority, lookup_type_eq,
    lookup_urgency_eq]

/-- C1.  The computed priority agrees with the spec formula (base 100,
per-type offset, urgency modifier, +20 for resource_weight > 2, floored at
1), and for jobs differing only in urgency the resulting priorities are
strictly ordered critical < high < normal < low. -/
theorem priority_formula_and_urgency_order (job : Job) :
    calculate_job_priority job = spec_priority job ∧
    (calculate_job_priority { job with urgency := some "critical" } <
        calculate_job_priority { job with urgency := some "high" } ∧
      calculate_job_priority { job with urgency := some "high" } <
        calculate_job_priority { job with urgency := some "normal" } ∧
      calculate_job_priority { job with urgency := some "normal" } <
        calculate_job_priority { job with urgency := some "low" }) := by
  refine ⟨calculate_eq_spec job, ?_⟩
  have hT := specTypeOffset_ge (job.jobType.getD "inference")
  have key : ∀ u : String,
      calculate_job_priority { job with urgency := some u } =
        max 1 (100 + specTypeOffset (job.jobType.getD "inference")
          + specUrgencyModifier u
          + (if 2 < job.resourceWeight.getD 1 then 20 else 0)) := by
    intro u
    rw [calculate_eq_spec]
    simp only [spec_priority, Option.getD_some]
  rw [key "critical", key "high", key "normal", key "low"]
  have c1 : specUrgencyModifier "critical" = -30 := by decide
  have c2 : specUrgencyModifier "high" = -15 := by decide
  have c3 : specUrgencyModifier "normal" = 0 := by decide
  have c4 : specUrgencyModifier "low" = 15 := by decide
  rw [c1, c2, c3, c4]
  set T := specTypeOffset (job.jobType.getD "inference") with hTdef
  have hw : (0 : ℤ) ≤ (if 2 < job.resourceWeight.getD 1 then 20 else 0) := by
    split_ifs <;> norm_num
  set W := (if 2 < job.resourceWeight.getD 1 then (20 : ℤ) else 0) with hWdef
  rw [max_eq_right (by omega), max_eq_right (by omega),
    max_eq_right (by omega), max_eq_right (by omega)]
  omega

/-- C4.  Admission control: under the default thresholds admission holds
exactly when every tracked resource is strictly below its threshold
(cpu 80, memory 85, gpu 90); at cpu exactly 80 admission is denied; and
whenever admission is denied the drain loop executes nothing and leaves
the queue exactly as it was (jobs wait, they are not dropped). -/
theorem admission_control_strict (th : Thresholds) (m : UsageMetrics)
    (q : List QueueEntry) :
    (can_execute_job default_thresholds m = true ↔
      (m.cpu < 80 ∧ m.memory < 85 ∧ m.gpu < 90)) ∧
    (m.cpu = 80 → can_execute_job default_thresholds m = false) ∧
    (can_execute_job th m = false → try_execute_jobs th m q = ([], q, m)) := by
  refine ⟨?_, ?_, ?_⟩
  · simp [can_execute_job, default_thresholds, and_assoc]
  · intro h
    simp [can_execute_job, default_thresholds, h]
  · intro h
    unfold try_execute_jobs
    cases q with
    | nil => rfl
    | cons e es =>
      show drain_queue th (es.length + 1) m (e :: es) = ([], e :: es, m)
      simp [drain_queue, h]

/-- C4 witness: at cpu usage exactly 80 (the default threshold) admission
is denied and the drain loop leaves a one-entry queue untouched. -/
theorem admission_control_strict_witness :
    can_execute_job default_thresholds ⟨80, 30, 40⟩ = false ∧
    try_execute_jobs default_thresholds ⟨80, 30, 40⟩ [entryA] =
      ([], [entryA], ⟨80, 30, 40⟩) :=
  ⟨(admission_control_strict default_thresholds ⟨80, 30, 40⟩ [entryA]).2.1 rfl,
   (admission_control_strict default_thresholds ⟨80, 30, 40⟩ [entryA]).2.2
     (by decide)⟩

/-- C9.  When the probe raises (the `except` branch of
`monitor_resources`), the returned sample has every numeric field equal to
zero and the resource history is returned unchanged: the failed sample is
not appended. -/
theorem monitor_failure_zero_sample (now : Timestamp) (msg : String)
    (history : List ResourceMetrics) :
    monitor_resources now (Except.error msg) history =
      ({ cpuUsage := 0, memoryUsage := 0, gpuUsage := 0, storageUsage := 0,
         networkBytes := 0, timestamp := now }, history) := rfl

/-- C10.  For the empty list of scheduled jobs the savings computation
takes the guarded early-return branch: it reports zero savings and zero
percentage reduction (with no emission detail fields), never forming the
mean of an empty list; the percentage division in the other branch is
likewise guarded by `immediate_emissions > 0`, so the function is total. -/
theorem carbon_savings_empty_total :
    calculate_carbon_savings [] = ⟨0, 0, none, none, none⟩ := rfl

lemma entryLe_refl (a : QueueEntry) : entryLe a a := Or.inr ⟨rfl, le_refl _⟩

lemma entryLe_of_not_lt {a b : QueueEntry} (h : ¬ entryLt a b) :
    entryLe b a := by
  unfold entryLt at h
  push_neg at h
  obtain ⟨h1, h2⟩ := h
  rcases lt_trichotomy b.priority a.priority with h3 | h3 | h3
  · exact Or.inl h3
  · exact Or.inr ⟨h3, h2 h3.symm⟩
  · exact absurd h3 (not_lt.mpr h1)

lemma entryLe_of_lt {a b : QueueEntry} (h : entryLt a b) : entryLe a b := by
  rcases h with h | ⟨h1, h2⟩
  · exact Or.inl h
  · exact Or.inr ⟨h1, le_of_lt h2⟩

lemma entryLe_trans {a b c : QueueEntry} (h1 : entryLe a b)
    (h2 : entryLe b c) : entryLe a c := by
  rcases h1 with h1 | ⟨h1, h1'⟩ <;> rcases h2 with h2 | ⟨h2, h2'⟩
  · exact Or.inl (lt_trans h1 h2)
  · exact Or.inl (h2 ▸ h1)
  · exact Or.inl (h1 ▸ h2)
  · exact Or.inr ⟨h1.trans h2, le_trans h1' h2'⟩

lemma findMin_cons (e x : QueueEntry) (xs : List QueueEntry) :
    findMin e (x :: xs) =
      if entryLt x e then ((findMin x xs).1, e :: (findMin x xs).2)
      else ((findMin e xs).1, x :: (findMin e xs).2) := rfl

lemma findMin_spec (es : List QueueEntry) : ∀ e : QueueEntry,
    ((findMin e es).1 = e ∨ (findMin e es).1 ∈ es) ∧
    entryLe (findMin e es).1 e ∧ ∀ x ∈ es, entryLe (findMin e es).1 x := by
  induction es with
  | nil => intro e; simp [findMin, entryLe_refl]
  | cons x xs ih =>
    intro e
    rw [findMin_cons]
    by_cases h : entryLt x e
    · rw [if_pos h]
      obtain ⟨hmem, hle, hall⟩ := ih x
      refine ⟨?_, ?_, ?_⟩
      · right
        rcases hmem with hm | hm
        · rw [hm]; exact List.mem_cons_self x xs
        · exact List.mem_cons_of_mem x hm
      · exact entryLe_trans hle (entryLe_of_lt h)
      · intro y hy
        rcases List.mem_cons.mp hy with rfl | hy
        · exact hle
        · exact hall y hy
    · rw [if_neg h]
      obtain ⟨hmem, hle, hall⟩ := ih e
      refine ⟨?_, hle, ?_⟩
      · rcases hmem with hm | hm
        · exact Or.inl hm
        · exact Or.inr (List.mem_cons_of_mem x hm)
      · intro y hy
        rcases List.mem_cons.mp hy with rfl | hy
        · exact entryLe_trans hle (entryLe_of_not_lt h)
        · exact hall y hy

/-- C2 counterexample.  Two jobs of equal computed priority (both
inference / normal, priority 110) are enqueued in the order "b" then "a";
the queue pops the entry with id "a" first, although the entry with id "b"
was enqueued earlier — equal-priority ties are broken by the job-id
string, not by insertion order. -/
theorem queue_tie_break_counterexample :
    calculate_job_priority jobIdA = 110 ∧
    calculate_job_priority jobIdB = 110 ∧
    queue_put (queue_put [] entryB) entryA = [entryB, entryA] ∧
    queue_get [entryB, entryA] = some (entryA, [entryB]) ∧
    entryA ≠ entryB := by
  have hab : entryLt entryA entryB := by
    refine Or.inr ⟨rfl, ?_⟩
    rw [String.lt_iff_toList_lt]
    decide
  refine ⟨by decide, by decide, rfl, ?_, by decide⟩
  show some (findMin entryB [entryA]) = some (entryA, [entryB])
  rw [findMin_cons, if_pos hab]
  rfl

/-- C2 amended.  `queue.get` pops the entry that is minimal under the
lexicographic order on `(priority, job_id)`: among entries of equal
numeric priority the lexicographically smallest job id is dequeued first,
regardless of insertion order. -/
theorem queue_pop_min_lex (q : List QueueEntry) (r : QueueEntry)
    (rest : List QueueEntry) (h : queue_get q = some (r, rest)) :
    r ∈ q ∧ (∀ x ∈ q, entryLe r x) ∧
    ∀ x ∈ q, r.priority = x.priority → r.jobId ≤ x.jobId := by
  cases q with
  | nil => exact absurd h (by simp [queue_get])
  | cons e es =>
    have hq : (findMin e es).1 = r := by
      have : findMin e es = (r, rest) := by simpa [queue_get] using h
      rw [this]
    obtain ⟨hmem, hle, hall⟩ := findMin_spec es e
    rw [hq] at hmem hle hall
    have hmem' : r ∈ e :: es := by
      rcases hmem with hm | hm
      · rw [hm]; exact List.mem_cons_self e es
      · exact List.mem_cons_of_mem e hm
    have hle' : ∀ x ∈ e :: es, entryLe r x := by
      intro x hx
      rcases List.mem_cons.mp hx with rfl | hx
      · exact hle
      · exact hall x hx
    refine ⟨hmem', hle', ?_⟩
    intro x hx hpr
    rcases hle' x hx with hlt | ⟨_, hid⟩
    · exact absurd hpr (ne_of_lt hlt)
    · exact hid

/-- C2 amended witness: on the concrete two-entry queue of the
counterexample, the popped entry "a" is a member, is lexicographically
minimal, and has the smaller job id among the equal-priority entries. -/
theorem queue_pop_min_lex_witness :
    entryA ∈ [entryB, entryA] ∧
    (∀ x ∈ [entryB, entryA], entryLe entryA x) ∧
    ∀ x ∈ [entryB, entryA], entryA.priority = x.priority →
      entryA.jobId ≤ x.jobId :=
  queue_pop_min_lex [entryB, entryA] entryA [entryB] (by
    have hab : entryLt entryA entryB := by
      refine Or.inr ⟨rfl, ?_⟩
      rw [String.lt_iff_toList_lt]
      decide
    show some (findMin entryB [entryA]) = some (entryA, [entryB])
    rw [findMin_cons, if_pos hab]
    rfl)

/-- The single capacity-10 window of the spec's packing test. -/
def window10 : CarbonWindow := ⟨9, 10, 250, 70, 10⟩

/-- A four-hour job for the packing test. -/
def packJob (s : String) : Job := ⟨some s, none, none, none, some 4, none⟩

/-- The [4,4,4] packing input of the spec's test. -/
def packJobs : List Job := [packJob "j1", packJob "j2", packJob "j3"]

lemma assign_job_cons (job : Job) (w : CarbonWindow)
    (ws : List CarbonWindow) :
    assign_job job (w :: ws) =
      if jobDuration job ≤ w.capacity then
        (some (mkScheduled job w),
         { w with capacity := w.capacity - jobDuration job } :: ws)
      else ((assign_job job ws).1, w :: (assign_job job ws).2) := rfl

lemma assign_job_characterization (job : Job) :
    ∀ (ws : List CarbonWindow) (e : ScheduledJob)
      (ws' : List CarbonWindow), assign_job job ws = (some e, ws') →
    ∃ pre w post, ws = pre ++ w :: post ∧
      jobDuration job ≤ w.capacity ∧
      ws' = pre ++ { w with capacity := w.capacity - jobDuration job }
        :: post ∧
      e = mkScheduled job w ∧
      ∀ v ∈ pre, v.capacity < jobDuration job := by
  intro ws
  induction ws with
  | nil => intro e ws' h; exact absurd h (by simp [assign_job])
  | cons w rest ih =>
    intro e ws' h
    rw [assign_job_cons] at h
    by_cases hc : jobDuration job ≤ w.capacity
    · rw [if_pos hc] at h
      obtain ⟨h1, h2⟩ := Prod.mk.injEq .. ▸ h
      refine ⟨[], w, rest, rfl, hc, h2.symm, (Option.some.injEq .. ▸ h1).symm,
        by simp⟩
    · rw [if_neg hc] at h
      obtain ⟨h1, h2⟩ := Prod.mk.injEq .. ▸ h
      obtain ⟨pre, w0, post, hsplit, hcap, hrest, he, hpre⟩ :=
        ih e (assign_job job rest).2 (by rw [← h1])
      refine ⟨w :: pre, w0, post, by rw [hsplit]; simp, hcap, ?_, he, ?_⟩
      · rw [← h2, hrest]; simp
      · intro v hv
        rcases List.mem_cons.mp hv with rfl | hv
        · exact lt_of_not_le hc
        · exact hpre v hv

lemma assign_job_nonneg (job : Job) (_h0 : 0 ≤ jobDuration job) :
    ∀ ws : List CarbonWindow, (∀ w ∈ ws, 0 ≤ w.capacity) →
    ∀ w ∈ (assign_job job ws).2, 0 ≤ w.capacity := by
  intro ws
  induction ws with
  | nil => intro _ w hw; exact absurd hw (by simp [assign_job])
  | cons x rest ih =>
    intro hws w hw
    rw [assign_job_cons] at hw
    by_cases hc : jobDuration job ≤ x.capacity
    · rw [if_pos hc] at hw
      rcases List.mem_cons.mp hw with rfl | hw
      · exact sub_nonneg.mpr hc
      · exact hws w (List.mem_cons_of_mem x hw)
    · rw [if_neg hc] at hw
      rcases List.mem_cons.mp hw with rfl | hw
      · exact hws _ (List.mem_cons_self _ _)
      · exact ih (fun v hv => hws v (List.mem_cons_of_mem x hv)) w hw

lemma schedule_nonneg :
    ∀ (js : List Job) (ws : List CarbonWindow),
    (∀ j ∈ js, 0 ≤ jobDuration j) → (∀ w ∈ ws, 0 ≤ w.capacity) →
    ∀ w ∈ (schedule_in_green_windows js ws).2, 0 ≤ w.capacity := by
  intro js
  induction js with
  | nil => intro ws _ hws w hw; exact hws w hw
  | cons j rest ih =>
    intro ws hjs hws w hw
    have hstep := assign_job_nonneg j (hjs j (List.mem_cons_self j rest))
      ws hws
    exact ih (assign_job j ws).2
      (fun v hv => hjs v (List.mem_cons_of_mem j hv)) hstep w hw

lemma pack_step1 : assign_job (packJob "j1") [window10] =
    (some (mkScheduled (packJob "j1") window10),
     [{ window10 with capacity := 6 }]) := by
  rw [assign_job_cons, if_pos (by norm_num [jobDuration, packJob, window10])]
  norm_num [window10, jobDuration, packJob]

lemma pack_step2 :
    assign_job (packJob "j2") [{ window10 with capacity := 6 }] =
      (some (mkScheduled (packJob "j2") { window10 with capacity := 6 }),
       [{ window10 with capacity := 2 }]) := by
  rw [assign_job_cons, if_pos (by norm_num [jobDuration, packJob, window10])]
  norm_num [window10, jobDuration, packJob]

lemma pack_step3 :
    assign_job (packJob "j3") [{ window10 with capacity := 2 }] =
      (none, [{ window10 with capacity := 2 }]) := by
  rw [assign_job_cons, if_neg (by norm_num [jobDuration, packJob, window10])]
  rfl

lemma pack_schedule_eq :
    schedule_in_green_windows packJobs [window10] =
      ([mkScheduled (packJob "j1") window10,
        mkScheduled (packJob "j2") { window10 with capacity := 6 }],
       [{ window10 with capacity := 2 }]) := by
  show schedule_in_green_windows
      (packJob "j1" :: packJob "j2" :: packJob "j3" :: []) [window10] = _
  simp only [schedule_in_green_windows, pack_step1, pack_step2, pack_step3]
  rfl

/-- C3.  Carbon packing: (i) whenever `assign_job` assigns a job it picks
the first window whose remaining capacity is at least the job's duration,
decrements exactly that window's capacity by exactly the duration, leaves
every other window untouched, and every earlier window was too full;
(ii) with non-negative durations and non-negative initial capacities no
window capacity ever becomes negative; (iii) on a single window of
capacity 10 with jobs of duration [4,4,4] only the first two jobs appear
in the schedule and the third is absent. -/
theorem carbon_packing_invariant :
    (∀ (job : Job) (ws : List CarbonWindow) (e : ScheduledJob)
       (ws' : List CarbonWindow), assign_job job ws = (some e, ws') →
       ∃ pre w post, ws = pre ++ w :: post ∧
         jobDuration job ≤ w.capacity ∧
         ws' = pre ++ { w with capacity := w.capacity - jobDuration job }
           :: post ∧
         e = mkScheduled job w ∧
         ∀ v ∈ pre, v.capacity < jobDuration job) ∧
    (∀ (js : List Job) (ws : List CarbonWindow),
       (∀ j ∈ js, 0 ≤ jobDuration j) → (∀ w ∈ ws, 0 ≤ w.capacity) →
       ∀ w ∈ (schedule_in_green_windows js ws).2, 0 ≤ w.capacity) ∧
    ((schedule_in_green_windows packJobs [window10]).1.map
        ScheduledJob.jobId = [some "j1", some "j2"] ∧
      some "j3" ∉ (schedule_in_green_windows packJobs [window10]).1.map
        ScheduledJob.jobId ∧
      (schedule_in_green_windows packJobs [window10]).2 =
        [{ window10 with capacity := 2 }]) :=
  ⟨assign_job_characterization, schedule_nonneg, by
    rw [pack_schedule_eq]
    exact ⟨rfl, by decide, rfl⟩⟩

/-- C3 witness: the characterization and the non-negativity statement
instantiated on the concrete capacity-10 window and the [4,4,4] jobs. -/
theorem carbon_packing_invariant_witness :
    (∃ pre w post, [window10] = pre ++ w :: post ∧
      jobDuration (packJob "j1") ≤ w.capacity ∧
      [{ window10 with capacity := 6 }] = pre ++
        { w with capacity := w.capacity - jobDuration (packJob "j1") }
          :: post ∧
      mkScheduled (packJob "j1") window10 = mkScheduled (packJob "j1") w ∧
      ∀ v ∈ pre, v.capacity < jobDuration (packJob "j1")) ∧
    ∀ w ∈ (schedule_in_green_windows packJobs [window10]).2,
      0 ≤ w.capacity :=
  ⟨carbon_packing_invariant.1 (packJob "j1") [window10]
      (mkScheduled (packJob "j1") window10)
      [{ window10 with capacity := 6 }] pack_step1,
   carbon_packing_invariant.2.1 packJobs [window10]
     (by intro j hj; fin_cases hj <;> norm_num [jobDuration, packJob])
     (by intro w hw; fin_cases hw; norm_num [window10])⟩

/-- C5.  Carbon savings: the reported headline figures are clamped to be
non-negative for every input, and for a non-empty schedule the reported
total savings equal the (clamped) difference between emissions at the
fixed 450 gCO2/kWh baseline and emissions at the mean scheduled intensity,
at 1 kWh per job. -/
theorem carbon_savings_clamped_formula (js : List ScheduledJob) :
    0 ≤ (calculate_carbon_savings js).totalSavingsKgCo2 ∧
    0 ≤ (calculate_carbon_savings js).percentageReduction ∧
    (js ≠ [] →
      (calculate_carbon_savings js).totalSavingsKgCo2 =
        max 0 ((js.length : ℚ) * 450 / 1000 -
          (js.length : ℚ) *
            ((js.map (fun j => j.carbonIntensity)).sum / (js.length : ℚ)) /
            1000)) := by
  unfold calculate_carbon_savings
  by_cases h : js.length = 0
  · rw [if_pos h]
    exact ⟨le_refl 0, le_refl 0,
      fun hne => absurd (List.length_eq_zero.mp h) hne⟩
  · rw [if_neg h]
    exact ⟨le_max_left 0 _, le_max_left 0 _, fun _ => rfl⟩

/-- C5 witness: instantiated on a one-job schedule at intensity 250. -/
theorem carbon_savings_clamped_formula_witness :
    0 ≤ (calculate_carbon_savings [sampleScheduled]).totalSavingsKgCo2 ∧
    0 ≤ (calculate_carbon_savings [sampleScheduled]).percentageReduction ∧
    (calculate_carbon_savings [sampleScheduled]).totalSavingsKgCo2 =
      max 0 (([sampleScheduled].length : ℚ) * 450 / 1000 -
        ([sampleScheduled].length : ℚ) *
          (([sampleScheduled].map (fun j => j.carbonIntensity)).sum /
            ([sampleScheduled].length : ℚ)) / 1000) := by
  obtain ⟨h1, h2, h3⟩ := carbon_savings_clamped_formula [sampleScheduled]
  exact ⟨h1, h2, h3 (by decide)⟩

lemma push_history_length_le (h : List ResourceMetrics)
    (m : ResourceMetrics) (hh : h.length ≤ 1000) :
    (push_history h m).length ≤ 1000 := by
  unfold push_history
  by_cases hc : 1000 < (h ++ [m]).length
  · rw [if_pos hc]
    simp only [List.length_drop, List.length_append, List.length_singleton]
    omega
  · rw [if_neg hc]
    simp only [List.length_append, List.length_singleton] at hc ⊢
    omega

lemma foldl_push_length (xs : List ResourceMetrics) :
    ∀ h : List ResourceMetrics, h.length ≤ 1000 →
    (List.foldl push_history h xs).length ≤ 1000 := by
  induction xs with
  | nil => intro h hh; exact hh
  | cons x rest ih =>
    intro h hh
    rw [List.foldl_cons]
    exact ih (push_history h x) (push_history_length_le h x hh)

lemma foldl_push_id (xs : List ResourceMetrics) :
    ∀ h : List ResourceMetrics, h.length + xs.length ≤ 1000 →
    List.foldl push_history h xs = h ++ xs := by
  induction xs with
  | nil => intro h _; simp
  | cons x rest ih =>
    intro h hh
    rw [List.foldl_cons]
    have hx : push_history h x = h ++ [x] := by
      unfold push_history
      rw [if_neg]
      simp only [List.length_append, List.length_singleton]
      simp only [List.length_cons] at hh
      omega
    rw [hx, ih (h ++ [x]) (by simp at hh ⊢; omega)]
    simp

lemma run_monitor_eq (now : Timestamp) (probes : List ProbeData) :
    run_monitor now probes =
      List.foldl push_history [] (probes.map (mkMetrics now)) := by
  unfold run_monitor
  rw [List.foldl_map]
  rfl

/-- C6.  The resource history never exceeds 1000 entries, and eviction is
FIFO: after monitoring 1001 successful samples the history is exactly the
last 1000 samples in order — the oldest sample has been evicted and the
length is exactly 1000. -/
theorem history_eviction_fifo (now : Timestamp) (probes : List ProbeData) :
    (run_monitor now probes).length ≤ 1000 ∧
    (probes.length = 1001 →
      run_monitor now probes = (probes.map (mkMetrics now)).drop 1 ∧
      (run_monitor now probes).length = 1000) := by
  rw [run_monitor_eq]
  constructor
  · exact foldl_push_length _ [] (by simp)
  · intro hlen
    have hms : (probes.map (mkMetrics now)).length = 1001 := by
      simp [hlen]
    have hne : probes.map (mkMetrics now) ≠ [] := by
      intro hcon; rw [hcon] at hms; simp at hms
    obtain ⟨ys, z, hsplit⟩ : ∃ ys z, probes.map (mkMetrics now) = ys ++ [z] :=
      ⟨(probes.map (mkMetrics now)).dropLast,
       (probes.map (mkMetrics now)).getLast hne,
       (List.dropLast_append_getLast hne).symm⟩
    have hys : ys.length = 1000 := by
      have := congrArg List.length hsplit
      simp only [List.length_append, List.length_singleton, hms] at this
      omega
    rw [hsplit, List.foldl_append,
      foldl_push_id ys [] (by simp [hys]), List.nil_append,
      List.foldl_cons, List.foldl_nil]
    unfold push_history
    rw [if_pos (by simp [hys])]
    constructor
    · rfl
    · simp [hys]

/-- C6 witness: 1001 identical probe readings leave a history equal to the
last 1000 mapped samples, of length exactly 1000. -/
theorem history_eviction_fifo_witness :
    run_monitor sampleTs (List.replicate 1001 sampleProbe) =
      ((List.replicate 1001 sampleProbe).map (mkMetrics sampleTs)).drop 1 ∧
    (run_monitor sampleTs (List.replicate 1001 sampleProbe)).length = 1000 :=
  (history_eviction_fifo sampleTs (List.replicate 1001 sampleProbe)).2
    (by rw [List.length_replicate])

/-- C7.  Prediction gating: with fewer than 10 history samples
`predict_resource_needs` returns the insufficient-data record (available
flag false, descriptive reason) and with 10 or more it returns a full
prediction carrying predicted usage, recommendations and confidence.  The
two history arguments let one witness instantiate both regimes. -/
theorem prediction_gating (h1 h2 : List ResourceMetrics) (hz1 hz2 : ℕ) :
    ((predict_resource_needs h1 hz1).isAvailable =
      decide (10 ≤ h1.length)) ∧
    (h1.length < 10 → predict_resource_needs h1 hz1 =
      PredictionResult.insufficientData "Insufficient historical data") ∧
    (10 ≤ h2.length → ∃ p r c, predict_resource_needs h2 hz2 =
      PredictionResult.prediction hz2 p r c) := by
  refine ⟨?_, ?_, ?_⟩
  · unfold predict_resource_needs
    by_cases hh : h1.length < 10
    · rw [if_pos hh]
      simp only [PredictionResult.isAvailable]
      symm
      rw [decide_eq_false_iff_not]
      omega
    · rw [if_neg hh]
      simp only [PredictionResult.isAvailable]
      symm
      rw [decide_eq_true_eq]
      omega
  · intro hh
    unfold predict_resource_needs
    rw [if_pos hh]
  · intro hh
    unfold predict_resource_needs
    rw [if_neg (by omega)]
    exact ⟨_, _, _, rfl⟩

/-- C7 witness: exactly 9 samples give the insufficient-data record and
exactly 10 samples give a real prediction. -/
theorem prediction_gating_witness :
    predict_resource_needs (List.replicate 9 sampleMetrics) 30 =
      PredictionResult.insufficientData "Insufficient historical data" ∧
    ∃ p r c, predict_resource_needs (List.replicate 10 sampleMetrics) 30 =
      PredictionResult.prediction 30 p r c :=
  ⟨(prediction_gating (List.replicate 9 sampleMetrics)
      (List.replicate 10 sampleMetrics) 30 30).2.1
      (by rw [List.length_replicate]; omega),
   (prediction_gating (List.replicate 9 sampleMetrics)
      (List.replicate 10 sampleMetrics) 30 30).2.2
      (by rw [List.length_replicate])⟩

/-- The projected usage exactly as the spec sentence describes it: the
latest of the last-10 feature vectors, plus the mean first-difference of
the last 5 feature vectors scaled by `horizon / 30`, each percentage
clamped to [0, 100]. -/
def spec_projected_usage (history : List ResourceMetrics) (horizon : ℕ) :
    PredictedUsage :=
  let feats := (history.drop (history.length - 10)).map feature_vector
  let latest := feats.getLast?.getD zero_feat
  let trend := feat_mean (feat_diff (feats.drop (feats.length - 5)))
  let future := feat_add latest (feat_scale ((horizon : ℚ) / 30) trend)
  { cpuUsage := clamp_pct (future.cpu * 100)
    memoryUsage := clamp_pct (future.mem * 100)
    gpuUsage := clamp_pct (future.gpu * 100)
    storageUsage := clamp_pct (future.storage * 100) }

lemma clamp_pct_nonneg (x : ℚ) : 0 ≤ clamp_pct x := le_max_left 0 _

lemma clamp_pct_le_100 (x : ℚ) : clamp_pct x ≤ 100 :=
  max_le (by norm_num) (min_le_left _ _)

/-- C8.  For a history of at least 10 samples the prediction returned by
`predict_resource_needs` is exactly the spec projection — latest feature
vector plus the mean first-difference of the last 5 feature vectors scaled
by `horizon / 30` — and all four projected percentages lie in [0, 100]. -/
theorem prediction_projection_bounds (history : List ResourceMetrics)
    (hz : ℕ) (h : 10 ≤ history.length) :
    (∃ r c, predict_resource_needs history hz =
      PredictionResult.prediction hz (spec_projected_usage history hz) r c) ∧
    (0 ≤ (spec_projected_usage history hz).cpuUsage ∧
      (spec_projected_usage history hz).cpuUsage ≤ 100) ∧
    (0 ≤ (spec_projected_usage history hz).memoryUsage ∧
      (spec_projected_usage history hz).memoryUsage ≤ 100) ∧
    (0 ≤ (spec_projected_usage history hz).gpuUsage ∧
      (spec_projected_usage history hz).gpuUsage ≤ 100) ∧
    (0 ≤ (spec_projected_usage history hz).storageUsage ∧
      (spec_projected_usage history hz).storageUsage ≤ 100) := by
  have hlen : ((history.drop (history.length - 10)).map
      feature_vector).length = 10 := by
    rw [List.length_map, List.length_drop]
    omega
  have hkey : neural_predict
      ((history.drop (history.length - 10)).map feature_vector) hz =
      spec_projected_usage history hz := by
    unfold neural_predict spec_projected_usage
    rw [if_pos (by rw [hlen]; norm_num)]
  refine ⟨⟨generate_resource_recommendations (neural_predict
      ((history.drop (history.length - 10)).map feature_vector) hz),
    calculate_prediction_confidence history, ?_⟩,
    ⟨clamp_pct_nonneg _, clamp_pct_le_100 _⟩,
    ⟨clamp_pct_nonneg _, clamp_pct_le_100 _⟩,
    ⟨clamp_pct_nonneg _, clamp_pct_le_100 _⟩,
    ⟨clamp_pct_nonneg _, clamp_pct_le_100 _⟩⟩
  unfold predict_resource_needs
  rw [if_neg (by omega)]
  simp only [hkey]

/-- C8 witness: instantiated on a ten-sample history at horizon 30. -/
theorem prediction_projection_bounds_witness :
    (∃ r c, predict_resource_needs (List.replicate 10 sampleMetrics) 30 =
      PredictionResult.prediction 30
        (spec_projected_usage (List.replicate 10 sampleMetrics) 30) r c) ∧
    (0 ≤ (spec_projected_usage (List.replicate 10 sampleMetrics) 30).cpuUsage ∧
      (spec_projected_usage (List.replicate 10 sampleMetrics) 30).cpuUsage
        ≤ 100) ∧
    (0 ≤ (spec_projected_usage
        (List.replicate 10 sampleMetrics) 30).memoryUsage ∧
      (spec_projected_usage (List.replicate 10 sampleMetrics) 30).memoryUsage
        ≤ 100) ∧
    (0 ≤ (spec_projected_usage (List.replicate 10 sampleMetrics) 30).gpuUsage ∧
      (spec_projected_usage (List.replicate 10 sampleMetrics) 30).gpuUsage
        ≤ 100) ∧
    (0 ≤ (spec_projected_usage
        (List.replicate 10 sampleMetrics) 30).storageUsage ∧
      (spec_projected_usage (List.replicate 10 sampleMetrics) 30).storageUsage
        ≤ 100) :=
  prediction_projection_bounds (List.replicate 10 sampleMetrics) 30
    (by rw [List.length_replicate])
